import Mathlib

/-!
A shallow embedding of the catifacts-bot webhook server (src/app.js):
the signature verifier, the event dispatcher, and the outbound
message builders, with theorems checking the claims of the specification.
Side effects are modelled explicitly: outbound Send-API calls become a
returned `List MessageData` (in call order), `Math.random()` becomes a
rational parameter `q` with `0 ≤ q < 1`, and console logging is dropped.
-/

namespace CatFacts

/-- A `{id: ...}` user reference as it appears in `sender`/`recipient`. -/
structure UserRef where
  id : String
deriving Repr, DecidableEq

/-- A `quick_reply` object on an inbound message. -/
structure QuickReply where
  payload : String
deriving Repr, DecidableEq

/-- An inbound `message` object (src/app.js lines 228-236): the handler reads
`is_echo`, `mid`, `app_id`, `metadata`, `text`, `attachments`, `quick_reply`.
Attachment contents are never inspected by the code, only presence, so an
attachment is modelled as an opaque string. In JS `is_echo` is truthy or
absent; it is modelled as a `Bool`. -/
structure InboundMessage where
  is_echo : Bool := false
  mid : Option String := none
  app_id : Option String := none
  metadata : Option String := none
  text : Option String := none
  attachments : Option (List String) := none
  quick_reply : Option QuickReply := none
deriving Repr, DecidableEq

/-- The `optin` object; the code reads `optin.ref` (line 193). -/
structure OptinInfo where
  ref : String
deriving Repr, DecidableEq

/-- The `delivery` object (lines 330-332). -/
structure DeliveryInfo where
  mids : Option (List String) := none
  watermark : Nat := 0
  seq : Nat := 0
deriving Repr, DecidableEq

/-- The `postback` object (line 359). -/
structure PostbackInfo where
  payload : String
deriving Repr, DecidableEq

/-- The `read` object (lines 381-382). -/
structure ReadInfo where
  watermark : Nat := 0
  seq : Nat := 0
deriving Repr, DecidableEq

/-- The `account_linking` object (lines 400-401). -/
structure AccountLinkingInfo where
  status : String
  authorization_code : String
deriving Repr, DecidableEq

/-- One messaging event inside a page entry. The webhook dispatcher
(lines 96-110) classifies it by presence of one of six fields. -/
structure MessagingEvent where
  sender : UserRef
  recipient : UserRef
  timestamp : Nat := 0
  optin : Option OptinInfo := none
  message : Option InboundMessage := none
  delivery : Option DeliveryInfo := none
  postback : Option PostbackInfo := none
  read : Option ReadInfo := none
  account_linking : Option AccountLinkingInfo := none
deriving Repr, DecidableEq

/-- One batched entry of a webhook envelope (lines 90-95). -/
structure PageEntry where
  id : String
  time : Nat := 0
  messaging : List MessagingEvent
deriving Repr, DecidableEq

/-- The top-level POST /webhook body (line 84-87). -/
structure WebhookEnvelope where
  object : String
  entry : List PageEntry
deriving Repr, DecidableEq

/-- A button object inside an outbound template payload; the JS objects have
a `type` plus a subset of `url`, `title`, `payload`. -/
structure TemplateButton where
  type : String
  url : Option String := none
  title : Option String := none
  payload : Option String := none
deriving Repr, DecidableEq

/-- One element of the generic template (lines 728-756). -/
structure GenericElement where
  title : String
  subtitle : String
  item_url : String
  image_url : String
  buttons : List TemplateButton
deriving Repr, DecidableEq

/-- One purchased item of the receipt template (lines 787-801). -/
structure ReceiptElement where
  title : String
  subtitle : String
  quantity : Nat
  price : ℚ
  currency : String
  image_url : String
deriving Repr, DecidableEq

/-- The address object of the receipt template (lines 802-809). -/
structure ReceiptAddress where
  street_1 : String
  street_2 : String
  city : String
  postal_code : String
  state : String
  country : String
deriving Repr, DecidableEq

/-- The summary object of the receipt template (lines 810-815). -/
structure ReceiptSummary where
  subtotal : ℚ
  shipping_cost : ℚ
  total_tax : ℚ
  total_cost : ℚ
deriving Repr, DecidableEq

/-- One adjustment of the receipt template (lines 816-822). -/
structure ReceiptAdjustment where
  name : String
  amount : ℚ
deriving Repr, DecidableEq

/-- A quick-reply option on an outbound message (lines 842-858). -/
structure QuickReplyOption where
  content_type : String
  title : String
  payload : String
deriving Repr, DecidableEq

/-- The `payload` of an outbound attachment. -/
inductive AttachPayload where
  | urlOnly (url : String)
  | buttonTemplate (template_type : String) (text : String)
      (buttons : List TemplateButton)
  | genericTemplate (template_type : String) (elements : List GenericElement)
  | receiptTemplate (template_type : String) (recipient_name : String)
      (order_number : String) (currency : String) (payment_method : String)
      (timestamp : String) (elements : List ReceiptElement)
      (address : ReceiptAddress) (summary : ReceiptSummary)
      (adjustments : List ReceiptAdjustment)
deriving Repr, DecidableEq

/-- The `message` / `sender_action` part of an outbound payload. The text of
a plain text message is an `Option` because `sendTextMessage` fills it from
`getRandomFact()`, whose JS value would be `undefined` if the random index
were out of range. -/
inductive OutboundContent where
  | textMessage (text : Option String) (metadata : String)
  | attachment (type : String) (payload : AttachPayload)
  | textWithQuickReplies (text : String) (quick_replies : List QuickReplyOption)
deriving Repr, DecidableEq

/-- A full outbound Send-API body `{recipient, message|sender_action}`
as passed to `callSendAPI` (line 948). -/
inductive MessageData where
  | message (recipient : UserRef) (content : OutboundContent)
  | senderAction (recipient : UserRef) (sender_action : String)
deriving Repr, DecidableEq

/-- The fact table of `getRandomFact` (src/app.js lines 518-652),
transcribed verbatim. -/
def facts : List String := [
  "Every year, nearly four million cats are eaten in Asia",
  "On average, cats spend 2/3 of every day sleeping",
  "Unlike dogs, cats do not have a sweet tooth",
  "When a cat chases its prey, it keeps its head level",
  "The technical term for a cat\x27s hairball is a bezoar",
  "A group of cats is called a clowder",
  "Female cats tend to be right pawed, while male cats are more often left pawed",
  "A cat cannot climb head first down a tree because its claws are curved the wrong way",
  "Cats make about 100 different sounds",
  "A cat\x27s brain is biologically more similar to a human brain than it is to a dog\x27s",
  "There are more than 500 million domestic cats in the world",
  "Approximately 24 cat skins can make a coat",
  "During the Middle Ages, cats were associated with witchcraft",
  "Cats are the most popular pet in North American Cats are North America\x27s most popular pets",
  "Approximately 40,000 people are bitten by cats in the U.S.",
  "A cat\x27s hearing is better than a dog\x27s",
  "A cat can travel at a top speed of approximately 31 mph (49 km) over a short distance",
  "A cat can jump up to five times its own height in a single bound",
  "Some cats have survived falls of over 20 meters",
  "Researchers are unsure exactly how a cat purrs",
  "When a family cat died in ancient Egypt, family members would mourn by shaving off their eyebrows",
  "In 1888, more than 300,000 mummified cats were found an Egyptian cemetery",
  "Most cats give birth to a litter of between one and nine kittens",
  "Smuggling a cat out of ancient Egypt was punishable by death",
  "The earliest ancestor of the modern cat lived about 30 million years ago",
  "The biggest wildcat today is the Siberian Tiger",
  "The smallest wildcat today is the Black-footed cat",
  "Many Egyptians worshipped the goddess Bast, who had a woman\x27s body and a cat\x27s head",
  "Mohammed loved cats and reportedly his favorite cat, Muezza, was a tabby",
  "The smallest pedigreed cat is a Singapura, which can weigh just 4 lbs",
  "Cats hate the water because their fur does not insulate well when it\x27s wet",
  "The Egyptian Mau is probably the oldest breed of cat",
  "A cat usually has about 12 whiskers on each side of its face",
  "A cat\x27s eyesight is both better and worse than humans",
  "A cat\x27s jaw can\x27t move sideways, so a cat can\x27t chew large chunks of food",
  "A cat almost never meows at another cat, mostly just humans",
  "A cat\x27s back is extremely flexible because it has up to 53 loosely fitting vertebrae",
  "Many cat owners think their cats can read their minds",
  "Two members of the cat family are distinct from all others: the clouded leopard and the cheetah",
  "In Japan, cats are thought to have the power to turn into super spirits when they die",
  "Most cats had short hair until about 100 years ago, when it became fashionable to own cats and experiment with breeding",
  "Cats have 32 muscles that control the outer ear",
  "Cats have about 20,155 hairs per square centimeter",
  "The first cat show was organized in 1871 in London",
  "A cat has 230 bones in its body",
  "Foods that should not be given to cats include onions, garlic, green tomatoes, raw potatoes, chocolate, grapes, and raisins",
  "A cat\x27s heart beats nearly twice as fast as a human heart",
  "Cats spend nearly 1/3 of their waking hours cleaning themselves",
  "Grown cats have 30 teeth",
  "The largest cat breed is the Ragdoll",
  "Cats are extremely sensitive to vibrations",
  "The cat who holds the record for the longest non-fatal fall is Andy",
  "The richest cat is Blackie who was left £15 million by his owner, Ben Rea",
  "Around the world, cats take a break to nap —a catnap— 425 million times a day",
  "In homes with more than one cat, it is best to have cats of the opposite sex. They tend to be better housemates.",
  "Cats are unable to detect sweetness in anything they taste",
  "Perhaps the oldest cat breed on record is the Egyptian Mau, which is also the Egyptian language\x27s word for cat",
  "In one litter of kittens, there could be multiple father cats",
  "Teeth of cats are sharper when they\x27re kittens. After six months, they lose their needle-sharp milk teeth",
  "Collectively, kittens yawn about 200 million time per hour",
  "According to the International Species Information Service, there are only three Marbled Cats still in existence worldwide.  One lives in the United States.",
  "Cats show affection and mark their territory by rubbing on people. Glands on their face, tail and paws release a scent to make its mark",
  "Maine Coons are the most massive breed of house cats. They can weigh up to around 24 pounds",
  "If you killed a cat in the ages of Pharaoh, you could\x27ve been put to death",
  "Most cats will eat 7 to 20 small meals a day. This interesting fact is brought to you by Nature\x27s Recipe®",
  "Most cats don\x27t have eyelashes",
  "Call them wide-eyes: cats are the mammals with the largest eyes",
  "Cats who eat too much tuna can become addicted, which can actually cause a Vitamin E deficiency",
  "Cats can pick up on your tone of voice, so sweet-talking to your cat has more of an impact than you think",
  "Some cats can survive falls from as high up as 65 feet or more",
  "Genetically, cats\x27 brains are more similar to that of a human than a dog\x27s brain",
  "If your cat\x27s eyes are closed, it\x27s not necessarily because it\x27s tired. A sign of closed eyes means your cat is happy or pleased",
  "Cats CAN be lefties and righties, just like us. More than forty percent of them are, leaving some ambidextrous",
  "Cats have the skillset that makes them able to learn how to use a toilet",
  "Each side of a cat\x27s face has about 12 whiskers",
  "Landing on all fours is something typical to cats thanks to the help of their eyes and special balance organs in their inner ear. These tools help them straighten themselves in the air and land upright on the ground.",
  "Eating grass rids a cats\x27 system of any fur and helps with digestion",
  "Cats have 24 more bones than humans",
  "Black cats aren\x27t an omen of ill fortune in all cultures. In the UK and Australia, spotting a black cat is good luck",
  "The Maine Coon is appropriately the official State cat of its namesake state",
  "The world\x27s most fertile cat, whose name was Dusty, gave birth to 420 kittens in her lifetime",
  "Sometimes called the Canadian Hairless, the Sphynx is the first cat breed that has lasted this long—the breed has been around since 1966",
  "Sir Isaac Newton, among his many achievements, invented the cat flap door",
  "In North America, cats are a more popular pet than dogs. Nearly 73 million cats and 63 million dogs are kept as household pets",
  "Today, cats are living twice as long as they did just 50 years ago",
  "Outdoor cats\x27 lifespan averages at about 3 to 5 years; indoor cats have lives that last 16 years or more",
  "Cats have the cognitive ability to sense a human\x27s feelings and overall mood",
  "Cats prefer their food at room temperature—not too hot, not too cold",
  "Bobtails are known to have notably short tails -- about half or a third the size of the average cat",
  "A fingerprint is to a human as a nose is to a cat",
  "Cats have over 100 sounds in their vocal repertoire, while dogs only have 10",
  "Cats came to the Americas from Europe as pest controllers in the 1750s",
  "According to the Association for Pet Obesity Prevention (APOP), about 50 million of our cats are overweight",
  "Cats use their whiskers to measure openings, indicate mood and general navigation",
  "Blue-eyed cats have a high tendency to be deaf, but not all cats with blue eyes are deaf",
  "Ancient Egyptians first adored cats for their finesse in killing rodents—as far back as 4,000 years ago",
  "The color of York Chocolates becomes richer with age. Kittens are born with a lighter coat than the adults",
  "Because of widespread cat smuggling in ancient Egypt, the exportation of cats was a crime punishable by death",
  "Cats actually have dreams, just like us. They start dreaming when they reach a week old",
  "It is important to include fat in your cat\x27s diet because they\x27re unable to make the nutrient in their bodies on their own",
  "A cat\x27s field of vision does not cover the area right under its nose",
  "Talk about Facetime: Cats greet one another by rubbing their noses together",
  "Cats sleep 16 hours of any given day",
  "Although it is known to be the tailless cat, the Manx can be born with a stub or a short tail",
  "A Selkirk slowly loses its naturally-born curly coat, but it grows again when the cat is around 8 months",
  "A cat\x27s heart beats almost double the rate of a human heart, from 110 to 140 beats per minute",
  "Ragdoll cats live up to their name: they will literally go limp, with relaxed muscles, when lifted by a human",
  "Unlike most other cats, the Turkish Van breed has a water-resistant coat and enjoys being in water",
  "Webbed feet on a cat? The Peterbald\x27s got \x27em! They make it easy for the cat to get a good grip on things with skill",
  "Despite appearing like a wild cat, the Ocicat does not have an ounce of wild blood",
  "Cat\x27s back claws aren\x27t as sharp as the claws on their front paws",
  "A group of kittens is called a kindle, and clowder is a term that refers to a group of adult cats",
  "A third of cats\x27 time spent awake is usually spent cleaning themselves",
  "A female cat is also known to be called a queen or a molly",
  "Want to call a hairball by its scientific name? Next time, say the word bezoar",
  "Cats have a 5 toes on their front paws and 4 on each back paw",
  "In multi-pet households, cats are able to get along especially well with dogs if they\x27re introduced when the cat is under 6 months old and the dog is under one year old",
  "Twenty-five percent of cat owners use a blow drier on their cats after bathing",
  "Rather than nine months, cats\x27 pregnancies last about nine weeks",
  "It has been said that the Ukrainian Levkoy has the appearance of a dog, due to the angles of its face",
  "A cat can reach up to five times its own height per jump",
  "Cats have a strong aversion to anything citrus",
  "Cats would rather starve themselves than eat something they don\x27t like. This means they will refuse an unpalatable -- but nutritionally complete -- food for a prolonged period",
  "The Snow Leopard, a variety of the California Spangled Cat, always has blue eyes",
  "The two outer layers of a cat\x27s hair are called, respectively, the guard hair and the awn hair",
  "When a household cat died in ancient Egypt, its owners showed their grief by shaving their eyebrows",
  "Caution during Christmas: poinsettias may be festive, but they’re poisonous to cats",
  "Most kittens are born with blue eyes, which then turn color with age",
  "A cat\x27s meow is usually not directed at another cat, but at a human. To communicate with other cats, they will usually hiss, purr and spit.",
  "According to the Guinness World Records, the largest domestic cat litter totaled at 19 kittens, four of them stillborn",
  "As temperatures rise, so do the number of cats. Cats are known to breed in warm weather, which leads many animal advocates worried about the plight of cats under Global Warming.",
  "Cats\x27 rough tongues enable them to clean themselves efficiently and to lick clean an animal bone",
  "Most cat litters contain four to six kittens"
]

/-- The random index computed by `getRandomFact` (line 654):
`Math.floor(Math.random() * ((facts.length - 1) - 0 + 1)) + 0`, with the
`Math.random()` draw modelled as a rational `q` (uniform on `[0,1)`). -/
def randomFactIndex (q : ℚ) : ℕ :=
  (⌊q * (((facts.length : ℚ) - 1) - 0 + 1)⌋ + 0).toNat

/-- `getRandomFact` (lines 517-658): returns `facts[randomnumber]`;
out-of-range indexing would give JS `undefined`, modelled by `Option`. -/
def getRandomFact (q : ℚ) : Option String :=
  facts.get? (randomFactIndex q)

/-- `sendImageMessage` (lines 411-427). -/
def sendImageMessage (SERVER_URL : String) (recipientId : String) : MessageData :=
  .message ⟨recipientId⟩
    (.attachment "image" (.urlOnly (SERVER_URL ++ "/assets/rift.png")))

/-- `sendGifMessage` (lines 433-449). -/
def sendGifMessage (SERVER_URL : String) (recipientId : String) : MessageData :=
  .message ⟨recipientId⟩
    (.attachment "image" (.urlOnly (SERVER_URL ++ "/assets/instagram_logo.gif")))

/-- `sendAudioMessage` (lines 455-471). -/
def sendAudioMessage (SERVER_URL : String) (recipientId : String) : MessageData :=
  .message ⟨recipientId⟩
    (.attachment "audio" (.urlOnly (SERVER_URL ++ "/assets/sample.mp3")))

/-- `sendVideoMessage` (lines 477-493). -/
def sendVideoMessage (SERVER_URL : String) (recipientId : String) : MessageData :=
  .message ⟨recipientId⟩
    (.attachment "video" (.urlOnly (SERVER_URL ++ "/assets/allofus480.mov")))

/-- `sendFileMessage` (lines 499-515). -/
def sendFileMessage (SERVER_URL : String) (recipientId : String) : MessageData :=
  .message ⟨recipientId⟩
    (.attachment "file" (.urlOnly (SERVER_URL ++ "/assets/test.txt")))

/-- `sendTextMessage` (lines 664-676). Note that the `messageText` argument
is ignored: the outbound text is `getRandomFact()`. The `Math.random()` draw
inside `getRandomFact` is the parameter `q`. -/
def sendTextMessage (recipientId : String) (messageText : String) (q : ℚ) :
    MessageData :=
  .message ⟨recipientId⟩
    (.textMessage (getRandomFact q) "DEVELOPER_DEFINED_METADATA")

/-- `sendButtonMessage` (lines 682-712). -/
def sendButtonMessage (recipientId : String) : MessageData :=
  .message ⟨recipientId⟩
    (.attachment "template" (.buttonTemplate "button" "This is test text"
      [{ type := "web_url", url := some "https://www.oculus.com/en-us/rift/",
         title := some "Open Web URL" },
       { type := "postback", title := some "Trigger Postback",
         payload := some "DEVELOPER_DEFINED_PAYLOAD" },
       { type := "phone_number", title := some "Call Phone Number",
         payload := some "+16505551234" }]))

/-- `sendGenericMessage` (lines 718-763). -/
def sendGenericMessage (SERVER_URL : String) (recipientId : String) :
    MessageData :=
  .message ⟨recipientId⟩
    (.attachment "template" (.genericTemplate "generic"
      [{ title := "rift", subtitle := "Next-generation virtual reality",
         item_url := "https://www.oculus.com/en-us/rift/",
         image_url := SERVER_URL ++ "/assets/rift.png",
         buttons :=
           [{ type := "web_url",
              url := some "https://www.oculus.com/en-us/rift/",
              title := some "Open Web URL" },
            { type := "postback", title := some "Call Postback",
              payload := some "Payload for first bubble" }] },
       { title := "touch", subtitle := "Your Hands, Now in VR",
         item_url := "https://www.oculus.com/en-us/touch/",
         image_url := SERVER_URL ++ "/assets/touch.png",
         buttons :=
           [{ type := "web_url",
              url := some "https://www.oculus.com/en-us/touch/",
              title := some "Open Web URL" },
            { type := "postback", title := some "Call Postback",
              payload := some "Payload for second bubble" }] }]))

/-- `sendReceiptMessage` (lines 769-829). The receipt id is
`"order" + Math.floor(Math.random()*1000)`; the draw is `q`. -/
def sendReceiptMessage (SERVER_URL : String) (recipientId : String) (q : ℚ) :
    MessageData :=
  let receiptId := "order" ++ toString (⌊q * 1000⌋.toNat)
  .message ⟨recipientId⟩
    (.attachment "template" (.receiptTemplate "receipt" "Peter Chang"
      receiptId "USD" "Visa 1234" "1428444852"
      [{ title := "Oculus Rift",
         subtitle := "Includes: headset, sensor, remote",
         quantity := 1, price := 599.00, currency := "USD",
         image_url := SERVER_URL ++ "/assets/riftsq.png" },
       { title := "Samsung Gear VR", subtitle := "Frost White",
         quantity := 1, price := 99.99, currency := "USD",
         image_url := SERVER_URL ++ "/assets/gearvrsq.png" }]
      { street_1 := "1 Hacker Way", street_2 := "", city := "Menlo Park",
        postal_code := "94025", state := "CA", country := "US" }
      { subtotal := 698.99, shipping_cost := 20.00, total_tax := 57.67,
        total_cost := 626.66 }
      [{ name := "New Customer Discount", amount := -50 },
       { name := "$100 Off Coupon", amount := -100 }]))

/-- `sendQuickReply` (lines 835-863). -/
def sendQuickReply (recipientId : String) : MessageData :=
  .message ⟨recipientId⟩
    (.textWithQuickReplies "What\x27s your favorite movie genre?"
      [{ content_type := "text", title := "Action",
         payload := "DEVELOPER_DEFINED_PAYLOAD_FOR_PICKING_ACTION" },
       { content_type := "text", title := "Comedy",
         payload := "DEVELOPER_DEFINED_PAYLOAD_FOR_PICKING_COMEDY" },
       { content_type := "text", title := "Drama",
         payload := "DEVELOPER_DEFINED_PAYLOAD_FOR_PICKING_DRAMA" }])

/-- `sendReadReceipt` (lines 869-880). -/
def sendReadReceipt (recipientId : String) : MessageData :=
  .senderAction ⟨recipientId⟩ "mark_seen"

/-- `sendTypingOn` (lines 886-897). -/
def sendTypingOn (recipientId : String) : MessageData :=
  .senderAction ⟨recipientId⟩ "typing_on"

/-- `sendTypingOff` (lines 903-914). -/
def sendTypingOff (recipientId : String) : MessageData :=
  .senderAction ⟨recipientId⟩ "typing_off"

/-- `sendAccountLinking` (lines 920-941). -/
def sendAccountLinking (SERVER_URL : String) (recipientId : String) :
    MessageData :=
  .message ⟨recipientId⟩
    (.attachment "template" (.buttonTemplate "button"
      "Welcome. Link your account."
      [{ type := "account_link", url := some (SERVER_URL ++ "/authorize") }]))

/-- JS `String.prototype.split` with a single-character separator,
on the character list: splits at every separator occurrence, keeping
empty pieces, e.g. `"sha1=abc"` splits at `=` into `["sha1", "abc"]`
and a string without the separator stays whole. -/
def jsSplitAux (sep : Char) : List Char → List Char → List (List Char)
  | [], acc => [acc.reverse]
  | c :: cs, acc =>
    if c = sep then acc.reverse :: jsSplitAux sep cs []
    else jsSplitAux sep cs (c :: acc)

/-- JS `s.split(sep)` for a one-character separator. -/
def jsSplit (s : String) (sep : Char) : List String :=
  (jsSplitAux sep s.data []).map List.asString

/-- JS truthiness of an optional string: absent (`undefined`) and `""` are
falsy, every other string is truthy. Used for `if (messageText)`. -/
def strTruthy : Option String → Bool
  | none => false
  | some s => !(s == "")

/-- `receivedAuthentication` (lines 183-202): logs, then sends
"Authentication successful" via `sendTextMessage` to the sender. -/
def receivedAuthentication (event : MessagingEvent) (q : ℚ) :
    List MessageData :=
  let senderID := event.sender.id
  [sendTextMessage senderID "Authentication successful" q]

/-- `receivedMessage` (lines 218-316): echo messages and quick replies are
handled first; truthy text goes through the thirteen-keyword switch with the
default case echoing into `sendTextMessage`; otherwise present attachments
get an acknowledgment. The `none` case is unreachable from the dispatcher,
which only calls this when `event.message` is present. -/
def receivedMessage (SERVER_URL : String) (event : MessagingEvent) (q : ℚ) :
    List MessageData :=
  match event.message with
  | none => []
  | some message =>
    let senderID := event.sender.id
    let isEcho := message.is_echo
    let messageText := message.text
    let messageAttachments := message.attachments
    let quickReply := message.quick_reply
    if isEcho then
      []
    else if quickReply.isSome then
      [sendTextMessage senderID "Quick reply tapped" q]
    else if strTruthy messageText then
      let t := messageText.getD ""
      if t = "image" then [sendImageMessage SERVER_URL senderID]
      else if t = "gif" then [sendGifMessage SERVER_URL senderID]
      else if t = "audio" then [sendAudioMessage SERVER_URL senderID]
      else if t = "video" then [sendVideoMessage SERVER_URL senderID]
      else if t = "file" then [sendFileMessage SERVER_URL senderID]
      else if t = "button" then [sendButtonMessage senderID]
      else if t = "generic" then [sendGenericMessage SERVER_URL senderID]
      else if t = "receipt" then [sendReceiptMessage SERVER_URL senderID q]
      else if t = "quick reply" then [sendQuickReply senderID]
      else if t = "read receipt" then [sendReadReceipt senderID]
      else if t = "typing on" then [sendTypingOn senderID]
      else if t = "typing off" then [sendTypingOff senderID]
      else if t = "account linking" then [sendAccountLinking SERVER_URL senderID]
      else [sendTextMessage senderID t q]
    else if messageAttachments.isSome then
      [sendTextMessage senderID "Message with attachment received" q]
    else
      []

/-- `receivedDeliveryConfirmation` (lines 326-342): logging only, no
outbound call. -/
def receivedDeliveryConfirmation (event : MessagingEvent) :
    List MessageData :=
  []

/-- `receivedPostback` (lines 352-367): logs, then sends "Postback called"
via `sendTextMessage` to the sender. -/
def receivedPostback (event : MessagingEvent) (q : ℚ) : List MessageData :=
  let senderID := event.sender.id
  [sendTextMessage senderID "Postback called" q]

/-- `receivedMessageRead` (lines 376-386): logging only, no outbound call. -/
def receivedMessageRead (event : MessagingEvent) : List MessageData :=
  []

/-- `receivedAccountLink` (lines 396-405): logging only, no outbound call. -/
def receivedAccountLink (event : MessagingEvent) : List MessageData :=
  []

/-- The per-event classifier of the POST /webhook handler (lines 96-110):
an if/else chain testing field presence in the fixed order optin, message,
delivery, postback, read, account_linking; an event matching none is only
logged. -/
def dispatchEvent (SERVER_URL : String) (messagingEvent : MessagingEvent)
    (q : ℚ) : List MessageData :=
  if messagingEvent.optin.isSome then
    receivedAuthentication messagingEvent q
  else if messagingEvent.message.isSome then
    receivedMessage SERVER_URL messagingEvent q
  else if messagingEvent.delivery.isSome then
    receivedDeliveryConfirmation messagingEvent
  else if messagingEvent.postback.isSome then
    receivedPostback messagingEvent q
  else if messagingEvent.read.isSome then
    receivedMessageRead messagingEvent
  else if messagingEvent.account_linking.isSome then
    receivedAccountLink messagingEvent
  else
    []

/-- The POST /webhook handler (lines 83-120): when `data.object` equals
`page` it iterates the entries in array order, the messaging events of
each entry in
array order, and then unconditionally sends status 200; otherwise it does
nothing (no outbound call, no explicit response status, modelled `none`).
Returns the outbound Send-API calls in order, and the explicit status. -/
def webhookPost (SERVER_URL : String) (data : WebhookEnvelope) (q : ℚ) :
    List MessageData × Option Nat :=
  if data.object = "page" then
    (data.entry.flatMap fun pageEntry =>
      pageEntry.messaging.flatMap fun messagingEvent =>
        dispatchEvent SERVER_URL messagingEvent q,
     some 200)
  else
    ([], none)

/-- `verifyRequestSignature` (lines 153-173). The HMAC-SHA1 computation is
external library code (`crypto`), modelled as an abstract function `hmacHex`
from (secret, raw body) to the hex digest. The guard is JS
`if (!signature)`: a falsy header — absent (`undefined`) or the empty
string — is only logged and processing continues (`.ok`). A truthy header
is split on `=`, and element 1 (JS `undefined` when absent, modelled
`none`) is compared with the expected digest; a mismatch throws. -/
def verifyRequestSignature (hmacHex : String → String → String)
    (APP_SECRET : String) (buf : String) (signature : Option String) :
    Except String Unit :=
  if !(strTruthy signature) then
    .ok ()
  else
    let elements := jsSplit (signature.getD "") '='
    let signatureHash := elements.get? 1
    let expectedHash := hmacHex APP_SECRET buf
    if signatureHash ≠ some expectedHash then
      .error "Couldn\x27t validate the request signature."
    else
      .ok ()

/-- The full inbound POST pipeline: `bodyParser.json({verify: ...})`
(line 24) runs `verifyRequestSignature` on the raw body before the route
handler; a throw there aborts the request, so the dispatcher never runs and
no outbound call is made. On success the parsed body goes to `webhookPost`. -/
def handleWebhookPost (hmacHex : String → String → String)
    (APP_SECRET : String) (buf : String) (signature : Option String)
    (SERVER_URL : String) (data : WebhookEnvelope) (q : ℚ) :
    Except String (List MessageData × Option Nat) :=
  match verifyRequestSignature hmacHex APP_SECRET buf signature with
  | .error e => .error e
  | .ok () => .ok (webhookPost SERVER_URL data q)

/-- The thirteen keyword strings of the `receivedMessage` switch. -/
def keywords : List String :=
  ["image", "gif", "audio", "video", "file", "button", "generic", "receipt",
   "quick reply", "read receipt", "typing on", "typing off",
   "account linking"]

/-- The recipient id of an outbound payload. -/
def recipientIdOf : MessageData → String
  | .message r _ => r.id
  | .senderAction r _ => r.id

/-- The plain text content of an outbound payload, when it has one. -/
def textContentOf : MessageData → Option String
  | .message _ (.textMessage t _) => t
  | .message _ (.textWithQuickReplies t _) => some t
  | _ => none

/-- The `attachment.type` of an outbound payload, when it has one. -/
def attachmentTypeOf : MessageData → Option String
  | .message _ (.attachment t _) => some t
  | _ => none

/-- The `attachment.payload.url` of an outbound payload, when it has one. -/
def attachmentUrlOf : MessageData → Option String
  | .message _ (.attachment _ (.urlOnly u)) => some u
  | _ => none

/-- The `attachment.payload.template_type` of an outbound payload, when it
has one. -/
def templateTypeOf : MessageData → Option String
  | .message _ (.attachment _ (.buttonTemplate tt _ _)) => some tt
  | .message _ (.attachment _ (.genericTemplate tt _)) => some tt
  | .message _ (.attachment _ (.receiptTemplate tt _ _ _ _ _ _ _ _ _)) =>
      some tt
  | _ => none

/-- Fixture: an echoed message event (with text and attachments present,
to exercise that `is_echo` wins over both). -/
def echoEvent : MessagingEvent :=
  { sender := ⟨"USER"⟩, recipient := ⟨"PAGE"⟩,
    message := some { is_echo := true, text := some "image",
                      attachments := some ["https://cdn.example/a.png"] } }

/-- Fixture: a message event whose text is the keyword `image`. -/
def imageTextEvent : MessagingEvent :=
  { sender := ⟨"USER"⟩, recipient := ⟨"PAGE"⟩,
    message := some { text := some "image" } }

/-- Fixture: a message event whose text is `hello` (no keyword). -/
def helloEvent : MessagingEvent :=
  { sender := ⟨"USER"⟩, recipient := ⟨"PAGE"⟩,
    message := some { text := some "hello" } }

/-- Fixture: a message event whose text is itself an entry of the fact
table (and no keyword). -/
def clowderEvent : MessagingEvent :=
  { sender := ⟨"USER"⟩, recipient := ⟨"PAGE"⟩,
    message := some { text := some "A group of cats is called a clowder" } }

/-- Fixture: a message event with attachments and no text. -/
def attachmentEvent : MessagingEvent :=
  { sender := ⟨"USER"⟩, recipient := ⟨"PAGE"⟩,
    message := some { attachments := some ["https://cdn.example/a.png"] } }

/-- Fixture: an event with none of the six distinguishing fields. -/
def unknownEvent : MessagingEvent :=
  { sender := ⟨"USER"⟩, recipient := ⟨"PAGE"⟩ }

/-- Fixture: an event carrying a postback. -/
def postbackEvent : MessagingEvent :=
  { sender := ⟨"USER"⟩, recipient := ⟨"PAGE"⟩,
    postback := some ⟨"DEVELOPER_DEFINED_PAYLOAD"⟩ }

/-! ## Theorems -/

/-- The fact table has 133 entries. -/
theorem facts_length : facts.length = 133 := rfl

/-- The random index is in range whenever the `Math.random()` draw is. -/
theorem randomFactIndex_lt (q : ℚ) (h0 : 0 ≤ q) (h1 : q < 1) :
    randomFactIndex q < facts.length := by
  have hlen : ((facts.length : ℚ) - 1) - 0 + 1 = 133 := by
    norm_num [facts_length]
  unfold randomFactIndex
  rw [hlen, add_zero]
  have hfl : ⌊q * 133⌋ < 133 := by
    rw [Int.floor_lt]
    push_cast
    nlinarith
  have hge : (0 : ℤ) ≤ ⌊q * 133⌋ := Int.floor_nonneg.mpr (by positivity)
  rw [facts_length]
  omega

/-- The preimage of index `i` under the draw-to-index map is exactly the
interval `[i/133, (i+1)/133)`: all 133 intervals have equal length `1/133`,
so a uniform draw yields a uniform index. -/
theorem randomFactIndex_eq_iff (q : ℚ) (h0 : 0 ≤ q) (i : ℕ) :
    randomFactIndex q = i ↔
      (i : ℚ) / 133 ≤ q ∧ q < ((i : ℚ) + 1) / 133 := by
  have hq0 : (0 : ℚ) ≤ q * 133 := by positivity
  have hfl0 : (0 : ℤ) ≤ ⌊q * 133⌋ := Int.floor_nonneg.mpr hq0
  have hlen : ((facts.length : ℚ) - 1) - 0 + 1 = 133 := by
    norm_num [facts_length]
  unfold randomFactIndex
  rw [hlen, add_zero, div_le_iff₀ (by norm_num : (0 : ℚ) < 133),
    lt_div_iff₀ (by norm_num : (0 : ℚ) < 133)]
  constructor
  · intro h
    have hz : ⌊q * 133⌋ = (i : ℤ) := by omega
    obtain ⟨hl, hr⟩ := Int.floor_eq_iff.mp hz
    refine ⟨by exact_mod_cast hl, ?_⟩
    push_cast at hr ⊢
    linarith
  · rintro ⟨hle, hlt⟩
    have hz : ⌊q * 133⌋ = (i : ℤ) := by
      rw [Int.floor_eq_iff]
      constructor
      · exact_mod_cast hle
      · push_cast
        linarith
    omega

/-- C8: a message event whose message has `is_echo` set is only logged:
the message handler returns immediately with zero outbound Send-API calls,
regardless of any text, attachments or quick_reply also present. -/
theorem c8_echo_no_outbound (SERVER_URL : String) (event : MessagingEvent)
    (message : InboundMessage) (q : ℚ)
    (hmsg : event.message = some message)
    (hecho : message.is_echo = true) :
    receivedMessage SERVER_URL event q = [] := by
  unfold receivedMessage
  rw [hmsg]
  simp [hecho]

/-- Witness for C8 at a concrete echoed event that also carries text and
attachments. -/
theorem c8_echo_no_outbound_witness :
    receivedMessage "https://bot.example" echoEvent 0 = [] :=
  c8_echo_no_outbound "https://bot.example" echoEvent
    { is_echo := true, text := some "image",
      attachments := some ["https://cdn.example/a.png"] } 0 rfl rfl

/-- C9: the payload built by `sendTextMessage` is independent of its
`messageText` argument — for the same random draw any two texts produce
identical payloads, namely a random fact as the text plus the fixed
metadata string. -/
theorem c9_sendTextMessage_ignores_argument (recipientId t1 t2 : String)
    (q : ℚ) :
    sendTextMessage recipientId t1 q = sendTextMessage recipientId t2 q ∧
    sendTextMessage recipientId t1 q =
      .message ⟨recipientId⟩
        (.textMessage (getRandomFact q) "DEVELOPER_DEFINED_METADATA") :=
  ⟨rfl, rfl⟩

/-- C10: delivery, read and account-link handlers make zero outbound
calls; optin and postback handlers each make exactly one, built by
`sendTextMessage` and addressed to the sender id of the event. -/
theorem c10_handler_call_counts (event : MessagingEvent) (q : ℚ) :
    receivedDeliveryConfirmation event = [] ∧
    receivedMessageRead event = [] ∧
    receivedAccountLink event = [] ∧
    receivedAuthentication event q =
      [sendTextMessage event.sender.id "Authentication successful" q] ∧
    receivedPostback event q =
      [sendTextMessage event.sender.id "Postback called" q] ∧
    recipientIdOf (sendTextMessage event.sender.id
      "Authentication successful" q) = event.sender.id ∧
    recipientIdOf (sendTextMessage event.sender.id "Postback called" q) =
      event.sender.id :=
  ⟨rfl, rfl, rfl, rfl, rfl, rfl, rfl⟩

/-- C5: an absent `x-hub-signature` header is a soft failure: the verifier
returns normally (never throws), so the body is still dispatched and the
outbound calls the envelope warrants still occur. -/
theorem c5_missing_header_soft_fail (hmacHex : String → String → String)
    (APP_SECRET buf SERVER_URL : String) (data : WebhookEnvelope) (q : ℚ) :
    verifyRequestSignature hmacHex APP_SECRET buf none = .ok () ∧
    handleWebhookPost hmacHex APP_SECRET buf none SERVER_URL data q =
      .ok (webhookPost SERVER_URL data q) :=
  ⟨rfl, rfl⟩

/-- C6: an envelope whose `object` field is not `"page"` produces zero
outbound calls and no explicit response status; when it is `"page"` the
handler responds 200 unconditionally after iterating the entries. -/
theorem c6_object_gate (SERVER_URL : String) (data : WebhookEnvelope)
    (q : ℚ) :
    (data.object ≠ "page" → webhookPost SERVER_URL data q = ([], none)) ∧
    (data.object = "page" →
      (webhookPost SERVER_URL data q).2 = some 200) := by
  constructor
  · intro h
    unfold webhookPost
    simp [h]
  · intro h
    unfold webhookPost
    simp [h]

/-- Witness for C6: a non-page envelope that does carry a postback event
still yields no outbound call and no status; an empty page envelope gets
status 200. -/
theorem c6_object_gate_witness :
    webhookPost "https://bot.example"
      { object := "user", entry := [{ id := "1", messaging := [postbackEvent] }] }
      0 = ([], none) ∧
    (webhookPost "https://bot.example" { object := "page", entry := [] }
      0).2 = some 200 :=
  ⟨(c6_object_gate "https://bot.example" _ 0).1 (by decide),
   (c6_object_gate "https://bot.example" _ 0).2 rfl⟩

/-- C1 (amended): with a non-empty `x-hub-signature` header present, if
the hex-digest portion after `=` differs from the HMAC-SHA1 hex digest of
the raw body under the app secret, the verifier throws and the whole
request aborts before any dispatch, so zero outbound calls occur; when the
digests are equal, verification accepts and processing continues. A
present but empty header value is falsy under the JS `if (!signature)`
guard and is soft-passed like an absent header. -/
theorem c1_signature_gate (hmacHex : String → String → String)
    (APP_SECRET buf s SERVER_URL : String) (data : WebhookEnvelope)
    (q : ℚ) (hs : s ≠ "") :
    ((jsSplit s '=').get? 1 ≠ some (hmacHex APP_SECRET buf) →
      verifyRequestSignature hmacHex APP_SECRET buf (some s) =
        .error "Couldn\x27t validate the request signature." ∧
      handleWebhookPost hmacHex APP_SECRET buf (some s) SERVER_URL data q =
        .error "Couldn\x27t validate the request signature.") ∧
    ((jsSplit s '=').get? 1 = some (hmacHex APP_SECRET buf) →
      verifyRequestSignature hmacHex APP_SECRET buf (some s) = .ok () ∧
      handleWebhookPost hmacHex APP_SECRET buf (some s) SERVER_URL data q =
        .ok (webhookPost SERVER_URL data q)) ∧
    verifyRequestSignature hmacHex APP_SECRET buf (some "") = .ok () := by
  refine ⟨?_, ?_, rfl⟩
  · intro h
    have hv : verifyRequestSignature hmacHex APP_SECRET buf (some s) =
        .error "Couldn\x27t validate the request signature." := by
      unfold verifyRequestSignature
      rw [List.get?_eq_getElem?] at h
      simp [strTruthy, hs, h]
    refine ⟨hv, ?_⟩
    unfold handleWebhookPost
    rw [hv]
  · intro h
    have hv : verifyRequestSignature hmacHex APP_SECRET buf (some s) =
        .ok () := by
      unfold verifyRequestSignature
      rw [List.get?_eq_getElem?] at h
      simp [strTruthy, hs, h]
    refine ⟨hv, ?_⟩
    unfold handleWebhookPost
    rw [hv]

/-- Counterexample for C1 as stated: a present but empty `x-hub-signature`
header has no hex-digest portion after `=` (JS `undefined`, so it differs
from the expected digest), yet the verifier does not throw — the JS
`if (!signature)` guard treats `""` as falsy, so the request is
soft-passed, still dispatched, and an outbound call still occurs. -/
theorem c1_signature_gate_counterexample :
    (jsSplit "" '=').get? 1 ≠ some "rawbody" ∧
    verifyRequestSignature (fun _ b => b) "secret" "rawbody" (some "") =
      .ok () ∧
    handleWebhookPost (fun _ b => b) "secret" "rawbody" (some "")
      "https://bot.example"
      { object := "page",
        entry := [{ id := "1", messaging := [postbackEvent] }] } 0 =
      .ok ([sendTextMessage "USER" "Postback called" 0], some 200) :=
  ⟨by decide, rfl, rfl⟩

/-- Witness for C1: with HMAC modelled as a concrete function, a mismatched
digest on a non-empty header aborts the request with an error and a
matching digest lets the envelope dispatch through to the 200 response. -/
theorem c1_signature_gate_witness :
    handleWebhookPost (fun _ b => b) "secret" "rawbody" (some "sha1=nope")
      "https://bot.example" { object := "page", entry := [] } 0 =
      .error "Couldn\x27t validate the request signature." ∧
    handleWebhookPost (fun _ b => b) "secret" "rawbody" (some "sha1=rawbody")
      "https://bot.example" { object := "page", entry := [] } 0 =
      .ok ([], some 200) := by
  constructor
  · exact ((c1_signature_gate (fun _ b => b) "secret" "rawbody" "sha1=nope"
      "https://bot.example" { object := "page", entry := [] } 0
      (by decide)).1 (by decide)).2
  · have h := ((c1_signature_gate (fun _ b => b) "secret" "rawbody"
      "sha1=rawbody" "https://bot.example" { object := "page", entry := [] }
      0 (by decide)).2.1 (by decide)).2
    rw [h]
    rfl

/-- C7: the per-event classifier tests the distinguishing fields in the
fixed priority order optin, message, delivery, postback, read,
account_linking, dispatching to the first present one; an event with none
of the six fields yields no outbound call and no error, and the outbound
traffic of the envelope is the in-order concatenation over entries and
over the events of each entry, so sibling events are still processed. -/
theorem c7_classifier_priority (SERVER_URL : String)
    (event : MessagingEvent) (q : ℚ) (data : WebhookEnvelope) :
    (event.optin.isSome = true →
      dispatchEvent SERVER_URL event q = receivedAuthentication event q) ∧
    (event.optin = none → event.message.isSome = true →
      dispatchEvent SERVER_URL event q =
        receivedMessage SERVER_URL event q) ∧
    (event.optin = none → event.message = none →
      event.delivery.isSome = true →
      dispatchEvent SERVER_URL event q =
        receivedDeliveryConfirmation event) ∧
    (event.optin = none → event.message = none → event.delivery = none →
      event.postback.isSome = true →
      dispatchEvent SERVER_URL event q = receivedPostback event q) ∧
    (event.optin = none → event.message = none → event.delivery = none →
      event.postback = none → event.read.isSome = true →
      dispatchEvent SERVER_URL event q = receivedMessageRead event) ∧
    (event.optin = none → event.message = none → event.delivery = none →
      event.postback = none → event.read = none →
      event.account_linking.isSome = true →
      dispatchEvent SERVER_URL event q = receivedAccountLink event) ∧
    (event.optin = none → event.message = none → event.delivery = none →
      event.postback = none → event.read = none →
      event.account_linking = none →
      dispatchEvent SERVER_URL event q = []) ∧
    (data.object = "page" →
      webhookPost SERVER_URL data q =
        (data.entry.flatMap fun pageEntry =>
          pageEntry.messaging.flatMap fun e => dispatchEvent SERVER_URL e q,
         some 200)) := by
  refine ⟨?_, ?_, ?_, ?_, ?_, ?_, ?_, ?_⟩
  · intro h1
    unfold dispatchEvent
    simp [h1]
  · intro h1 h2
    unfold dispatchEvent
    simp [h1, h2]
  · intro h1 h2 h3
    unfold dispatchEvent
    simp [h1, h2, h3]
  · intro h1 h2 h3 h4
    unfold dispatchEvent
    simp [h1, h2, h3, h4]
  · intro h1 h2 h3 h4 h5
    unfold dispatchEvent
    simp [h1, h2, h3, h4, h5]
  · intro h1 h2 h3 h4 h5 h6
    unfold dispatchEvent
    simp [h1, h2, h3, h4, h5, h6]
  · intro h1 h2 h3 h4 h5 h6
    unfold dispatchEvent
    simp [h1, h2, h3, h4, h5, h6]
  · intro h
    unfold webhookPost
    simp [h]

/-- Witness for C7: an event with both `optin` and `message` present goes
to the optin handler (priority), an unknown-shape event is dropped without
error, and a page envelope containing an unknown event followed by a
postback event still processes the sibling (one outbound call) and
responds 200. -/
theorem c7_classifier_priority_witness :
    dispatchEvent "https://bot.example"
      { sender := ⟨"USER"⟩, recipient := ⟨"PAGE"⟩,
        optin := some ⟨"PASS_THROUGH"⟩,
        message := some { text := some "image" } } 0 =
      receivedAuthentication
        { sender := ⟨"USER"⟩, recipient := ⟨"PAGE"⟩,
          optin := some ⟨"PASS_THROUGH"⟩,
          message := some { text := some "image" } } 0 ∧
    dispatchEvent "https://bot.example" unknownEvent 0 = [] ∧
    webhookPost "https://bot.example"
      { object := "page",
        entry := [{ id := "1", messaging := [unknownEvent, postbackEvent] }] }
      0 =
      ([sendTextMessage "USER" "Postback called" 0], some 200) := by
  refine ⟨?_, ?_, ?_⟩
  · exact (c7_classifier_priority "https://bot.example" _ 0
      { object := "page", entry := [] }).1 rfl
  · exact (c7_classifier_priority "https://bot.example" unknownEvent 0
      { object := "page", entry := [] }).2.2.2.2.2.2.1
      rfl rfl rfl rfl rfl rfl
  · have h := (c7_classifier_priority "https://bot.example" unknownEvent 0
      { object := "page",
        entry := [{ id := "1",
                    messaging := [unknownEvent, postbackEvent] }] }).2.2.2.2.2.2.2
      rfl
    rw [h]
    rfl

/-- C3: a non-echo, non-quick-reply message event whose text is exactly one
of the thirteen keyword strings dispatches to the correspondingly-named
response builder; in particular text `"button"` yields exactly one outbound
call whose attachment `template_type` is `"button"`, and text `"image"`
yields one outbound call whose attachment type is `"image"` with payload
URL `SERVER_URL ++ "/assets/rift.png"`. -/
theorem c3_keyword_dispatch (SERVER_URL : String) (event : MessagingEvent)
    (message : InboundMessage) (q : ℚ)
    (hmsg : event.message = some message)
    (hecho : message.is_echo = false)
    (hqr : message.quick_reply = none) :
    (message.text = some "image" →
      receivedMessage SERVER_URL event q =
        [sendImageMessage SERVER_URL event.sender.id] ∧
      attachmentTypeOf (sendImageMessage SERVER_URL event.sender.id) =
        some "image" ∧
      attachmentUrlOf (sendImageMessage SERVER_URL event.sender.id) =
        some (SERVER_URL ++ "/assets/rift.png")) ∧
    (message.text = some "gif" →
      receivedMessage SERVER_URL event q =
        [sendGifMessage SERVER_URL event.sender.id]) ∧
    (message.text = some "audio" →
      receivedMessage SERVER_URL event q =
        [sendAudioMessage SERVER_URL event.sender.id]) ∧
    (message.text = some "video" →
      receivedMessage SERVER_URL event q =
        [sendVideoMessage SERVER_URL event.sender.id]) ∧
    (message.text = some "file" →
      receivedMessage SERVER_URL event q =
        [sendFileMessage SERVER_URL event.sender.id]) ∧
    (message.text = some "button" →
      receivedMessage SERVER_URL event q =
        [sendButtonMessage event.sender.id] ∧
      templateTypeOf (sendButtonMessage event.sender.id) = some "button") ∧
    (message.text = some "generic" →
      receivedMessage SERVER_URL event q =
        [sendGenericMessage SERVER_URL event.sender.id]) ∧
    (message.text = some "receipt" →
      receivedMessage SERVER_URL event q =
        [sendReceiptMessage SERVER_URL event.sender.id q]) ∧
    (message.text = some "quick reply" →
      receivedMessage SERVER_URL event q =
        [sendQuickReply event.sender.id]) ∧
    (message.text = some "read receipt" →
      receivedMessage SERVER_URL event q =
        [sendReadReceipt event.sender.id]) ∧
    (message.text = some "typing on" →
      receivedMessage SERVER_URL event q =
        [sendTypingOn event.sender.id]) ∧
    (message.text = some "typing off" →
      receivedMessage SERVER_URL event q =
        [sendTypingOff event.sender.id]) ∧
    (message.text = some "account linking" →
      receivedMessage SERVER_URL event q =
        [sendAccountLinking SERVER_URL event.sender.id]) := by
  unfold receivedMessage
  rw [hmsg]
  refine ⟨?_, ?_, ?_, ?_, ?_, ?_, ?_, ?_, ?_, ?_, ?_, ?_, ?_⟩ <;>
    intro ht <;>
    simp [hecho, hqr, ht, strTruthy, attachmentTypeOf, attachmentUrlOf,
      templateTypeOf, sendImageMessage, sendButtonMessage]

/-- Witness for C3 at a concrete event with text `"image"`. -/
theorem c3_keyword_dispatch_witness :
    receivedMessage "https://bot.example" imageTextEvent 0 =
      [sendImageMessage "https://bot.example" "USER"] ∧
    attachmentTypeOf (sendImageMessage "https://bot.example" "USER") =
      some "image" ∧
    attachmentUrlOf (sendImageMessage "https://bot.example" "USER") =
      some ("https://bot.example" ++ "/assets/rift.png") :=
  (c3_keyword_dispatch "https://bot.example" imageTextEvent
    { text := some "image" } 0 rfl rfl rfl).1 rfl

/-- C2 (amended): a non-keyword, non-empty text message dispatches to the
default branch, which calls `sendTextMessage` with the incoming text; the
outbound text payload ignores that argument and is the fact-table entry at
`randomFactIndex q`, an in-range index whose preimage under the uniform
draw `q` is an equal-length interval for every entry (uniform selection
over all 133 entries); for the input `"hello"`, which is not in the table,
the payload content is never equal to the incoming text. -/
theorem c2_default_random_fact (SERVER_URL : String)
    (event : MessagingEvent) (message : InboundMessage) (t : String) (q : ℚ)
    (hmsg : event.message = some message)
    (hecho : message.is_echo = false)
    (hqr : message.quick_reply = none)
    (htext : message.text = some t)
    (hne : t ≠ "")
    (hkw : t ∉ keywords)
    (h0 : 0 ≤ q) (h1 : q < 1) :
    receivedMessage SERVER_URL event q =
      [sendTextMessage event.sender.id t q] ∧
    textContentOf (sendTextMessage event.sender.id t q) =
      facts.get? (randomFactIndex q) ∧
    randomFactIndex q < facts.length ∧
    (∃ f ∈ facts,
      textContentOf (sendTextMessage event.sender.id t q) = some f) ∧
    (∀ i : ℕ, randomFactIndex q = i ↔
      (i : ℚ) / (facts.length : ℚ) ≤ q ∧
        q < ((i : ℚ) + 1) / (facts.length : ℚ)) ∧
    (t = "hello" →
      textContentOf (sendTextMessage event.sender.id t q) ≠ some t) := by
  have hlt := randomFactIndex_lt q h0 h1
  have hget : facts.get? (randomFactIndex q) =
      some (facts.get ⟨randomFactIndex q, hlt⟩) :=
    List.get?_eq_get hlt
  have hcontent : textContentOf (sendTextMessage event.sender.id t q) =
      some (facts.get ⟨randomFactIndex q, hlt⟩) := by
    simp [textContentOf, sendTextMessage, getRandomFact, hget]
  refine ⟨?_, rfl, hlt, ?_, ?_, ?_⟩
  · unfold receivedMessage
    rw [hmsg]
    simp only [keywords, List.mem_cons, List.not_mem_nil, or_false,
      not_or] at hkw
    obtain ⟨k1, k2, k3, k4, k5, k6, k7, k8, k9, k10, k11, k12, k13⟩ := hkw
    simp [hecho, hqr, htext, strTruthy, hne, k1, k2, k3, k4, k5, k6, k7,
      k8, k9, k10, k11, k12, k13]
  · exact ⟨facts.get ⟨randomFactIndex q, hlt⟩, List.get_mem _ _ _, hcontent⟩
  · intro i
    rw [randomFactIndex_eq_iff q h0 i, facts_length]
    norm_num
  · intro ht'
    subst ht'
    rw [hcontent]
    intro hcontra
    have hm : "hello" ∈ facts :=
      (Option.some.inj hcontra) ▸ List.get_mem _ _ _
    exact (by decide : "hello" ∉ facts) hm

/-- Counterexample for C2 as stated: when the incoming non-keyword text is
itself a fact-table entry and the draw lands on that entry (index 5 at
`q = 11/266`), the outbound text payload is equal to the incoming text, so
"not equal to the incoming text" fails. -/
theorem c2_default_random_fact_counterexample :
    "A group of cats is called a clowder" ∉ keywords ∧
    receivedMessage "https://bot.example" clowderEvent (11 / 266) =
      [sendTextMessage "USER" "A group of cats is called a clowder"
        (11 / 266)] ∧
    textContentOf (sendTextMessage "USER"
        "A group of cats is called a clowder" (11 / 266)) =
      some "A group of cats is called a clowder" := by
  have hidx : randomFactIndex (11 / 266) = 5 := by
    unfold randomFactIndex
    norm_num [facts_length]
    rfl
  refine ⟨by decide, rfl, ?_⟩
  have hfact : getRandomFact (11 / 266) =
      some "A group of cats is called a clowder" := by
    unfold getRandomFact
    rw [hidx]
    rfl
  simp [textContentOf, sendTextMessage, hfact]

/-- Witness for C2 at the concrete input `"hello"` and draw `0`. -/
theorem c2_default_random_fact_witness :
    receivedMessage "https://bot.example" helloEvent 0 =
      [sendTextMessage "USER" "hello" 0] ∧
    textContentOf (sendTextMessage "USER" "hello" 0) ≠ some "hello" := by
  have h := c2_default_random_fact "https://bot.example" helloEvent
    { text := some "hello" } "hello" 0 rfl rfl rfl rfl (by decide)
    (by decide) le_rfl (by norm_num)
  exact ⟨h.1, h.2.2.2.2.2 rfl⟩

/-- C4 (amended): a non-echo, non-quick-reply message event with no text
and attachments present makes exactly one outbound call, built by
`sendTextMessage` with the fixed argument "Message with attachment
received" addressed to the sender; but since `sendTextMessage` ignores its
text argument, the outbound text content is the random fact of the draw,
not a fixed text. -/
theorem c4_attachment_ack (SERVER_URL : String) (event : MessagingEvent)
    (message : InboundMessage) (atts : List String) (q : ℚ)
    (hmsg : event.message = some message)
    (hecho : message.is_echo = false)
    (hqr : message.quick_reply = none)
    (htext : message.text = none)
    (hatt : message.attachments = some atts)
    (hne : atts ≠ []) :
    receivedMessage SERVER_URL event q =
      [sendTextMessage event.sender.id "Message with attachment received" q] ∧
    textContentOf (sendTextMessage event.sender.id
      "Message with attachment received" q) = getRandomFact q := by
  constructor
  · unfold receivedMessage
    rw [hmsg]
    simp [hecho, hqr, htext, hatt, strTruthy]
  · rfl

/-- Counterexample for C4 as stated: two invocations of the
attachment-acknowledgment path with different random draws produce
different outbound text contents, so the acknowledgment text is not fixed
across invocations. -/
theorem c4_attachment_ack_counterexample :
    (receivedMessage "https://bot.example" attachmentEvent 0).map
      textContentOf =
      [some "Every year, nearly four million cats are eaten in Asia"] ∧
    (receivedMessage "https://bot.example" attachmentEvent (1 / 2)).map
      textContentOf =
      [some "Call them wide-eyes: cats are the mammals with the largest eyes"] ∧
    ("Every year, nearly four million cats are eaten in Asia" : String) ≠
      "Call them wide-eyes: cats are the mammals with the largest eyes" := by
  have h0 : randomFactIndex 0 = 0 := by
    unfold randomFactIndex
    norm_num [facts_length]
  have h66 : randomFactIndex (1 / 2) = 66 := by
    unfold randomFactIndex
    norm_num [facts_length]
    rfl
  have g0 : getRandomFact 0 =
      some "Every year, nearly four million cats are eaten in Asia" := by
    unfold getRandomFact
    rw [h0]
    rfl
  have g66 : getRandomFact (1 / 2) =
      some "Call them wide-eyes: cats are the mammals with the largest eyes" := by
    unfold getRandomFact
    rw [h66]
    rfl
  have e0 : receivedMessage "https://bot.example" attachmentEvent 0 =
      [sendTextMessage "USER" "Message with attachment received" 0] := rfl
  have e66 : receivedMessage "https://bot.example" attachmentEvent (1 / 2) =
      [sendTextMessage "USER" "Message with attachment received" (1 / 2)] :=
    rfl
  refine ⟨?_, ?_, by decide⟩
  · rw [e0]
    have ht : textContentOf (sendTextMessage "USER"
        "Message with attachment received" 0) = getRandomFact 0 := rfl
    rw [List.map_cons, List.map_nil, ht, g0]
  · rw [e66]
    have ht : textContentOf (sendTextMessage "USER"
        "Message with attachment received" (1 / 2)) =
        getRandomFact (1 / 2) := rfl
    rw [List.map_cons, List.map_nil, ht, g66]

/-- Witness for C4 at a concrete attachment-only event and draw `0`. -/
theorem c4_attachment_ack_witness :
    receivedMessage "https://bot.example" attachmentEvent 0 =
      [sendTextMessage "USER" "Message with attachment received" 0] ∧
    textContentOf (sendTextMessage "USER"
      "Message with attachment received" 0) = getRandomFact 0 :=
  c4_attachment_ack "https://bot.example" attachmentEvent
    { attachments := some ["https://cdn.example/a.png"] }
    ["https://cdn.example/a.png"] 0 rfl rfl rfl rfl rfl (by decide)

end CatFacts
